import Mathlib

/-!
# bmcweb: the start-up sequence of src/webserver_main.cpp

A state-passing embedding of `setupSocket`, `run` and `main` from
src/webserver_main.cpp.

* The preprocessor switches (`BMCWEB_ENABLE_...`) and the configuration
  constant `bmcwebInsecureDisableXssPrevention` are the fields of `Flags`.
* Every statement of the three functions that calls out of the file, or that
  assigns the global `crow::connections::systemBus`, is a `Step`.  The `World`
  keeps the list of steps begun so far, in execution order (`trace`), the
  global bus pointer, the listen target given to the app, and the
  subscriptions that exist.
* What the surrounding libraries answer is the `Env`: the three `int` results
  the code branches on, and for every call whether it throws.
* The code is sequential: a step is begun only after every step before it in
  the trace has returned.  A step that throws is the last one of the trace.
* `BMCWEB_LOG_...` statements only write log lines and are left out.
-/

namespace Bmcweb

/-- Build configuration read by webserver_main.cpp: one field per
`#ifdef BMCWEB_ENABLE_...` of the file, and the constant
`bmcwebInsecureDisableXssPrevention` of bmcweb_config.h. -/
structure Flags where
  logging : Bool
  staticHosting : Bool
  kvm : Bool
  redfish : Bool
  redfishAggregation : Bool
  dbusRest : Bool
  eventSubscriptionWebsocket : Bool
  hostSerialWebsocket : Bool
  bmcShellWebsocket : Bool
  hypervisorSerialWebsocket : Bool
  vmWebsocket : Bool
  ibmManagementConsole : Bool
  googleApi : Bool
  vmNbdproxy : Bool
  redfishDbusLogEntries : Bool
  ssl : Bool
  bmcwebInsecureDisableXssPrevention : Int
  deriving DecidableEq, Repr

/-- The statements of `setupSocket` and `run`, named after what they call.
The comment gives the line of webserver_main.cpp. -/
inductive Step where
  | setLogLevelDebug                 -- 72
  | setLogLevelError                 -- 75
  | makeIoContext                    -- 78
  | constructApp                     -- 79
  | constructSystemBus               -- 81
  | assignSystemBus                  -- 82  crow::connections::systemBus = &systemBus
  | webassetsRequestRoutes           -- 88
  | obmcKvmRequestRoutes             -- 92
  | constructRedfishService          -- 96
  | eventServiceManagerGetInstance   -- 99
  | redfishAggregatorGetInstance     -- 103
  | imageUploadRequestRoutes         -- 108
  | openbmcMapperRequestRoutes       -- 109
  | dbusMonitorRequestRoutes         -- 113
  | obmcConsoleRequestRoutes         -- 117
  | obmcShellRequestRoutes           -- 121
  | obmcHypervisorRequestRoutes      -- 125
  | obmcVmRequestRoutes              -- 129
  | ibmMcRequestRoutes               -- 133
  | ibmMcLockGetInstance             -- 134
  | registerStateChangeSignal        -- 136
  | registerDumpUpdateSignal         -- 138
  | registerBIOSAttrUpdateSignal     -- 140
  | registerEventLogCreatedSignal    -- 142
  | registerPostCodeChangeSignal     -- 144
  | registerVMIConfigChangeSignal    -- 147
  | registerSAIStateChangeSignal     -- 149
  | googleApiRequestRoutes           -- 154
  | corsPreflightRequestRoutes       -- 159
  | loginRoutesRequestRoutes         -- 162
  | setupSocket                      -- 164  entry into setupSocket(app)
  | sdListenFds                      -- 42
  | sdIsSocketInet                   -- 46
  | appSocket (fd : Int)             -- 51
  | appPort (port : Int)             -- 58, 64
  | nbdProxyRequestRoutes            -- 167
  | startEventLogMonitor             -- 171
  | registerHostnameSignal           -- 181
  | registerUserRemovedSignal        -- 184
  | appRun                           -- 186
  | ioRun                            -- 187
  | clearSystemBus                   -- 189  crow::connections::systemBus = nullptr
  deriving DecidableEq, Repr

/-- What a C++ call can throw, as far as the handlers of `main` tell apart:
something derived from `std::exception`, or anything else. -/
inductive Thrown where
  | stdException (what : String)
  | other
  deriving DecidableEq, Repr

/-- The global `crow::connections::systemBus`: null, or the address of the
local variable `systemBus` of `run`.  Once `run` has returned that local is
destroyed, so `runLocal` is then a dangling pointer. -/
inductive BusPtr where
  | null
  | runLocal
  deriving DecidableEq, Repr

/-- What the app was told to listen on: `app.socket(fd)` or `app.port(n)`. -/
inductive ListenTarget where
  | inheritedDescriptor (fd : Int)
  | port (number : Int)
  deriving DecidableEq, Repr

/-- The answers of the environment during one execution. -/
structure Env where
  /-- Whether the call of a step throws, and what. -/
  throws : Step → Option Thrown
  /-- Result of `sd_listen_fds(0)`. -/
  listenFds : Int
  /-- Result of `sd_is_socket_inet(SD_LISTEN_FDS_START, AF_UNSPEC, SOCK_STREAM, 1, 0)`. -/
  isSocketInet : Int
  /-- Result of `redfish::EventServiceManager::startEventLogMonitor(*io)`. -/
  monitorRc : Int
  /-- Whether a register call that returns has failed to set up its subscription. -/
  establishFails : Step → Bool

/-- The part of the process state that `run` and `setupSocket` change. -/
structure World where
  /-- Steps begun so far, oldest first. -/
  trace : List Step
  /-- The global `crow::connections::systemBus`. -/
  systemBus : BusPtr
  /-- The listen target last given to the app, if any. -/
  listenTarget : Option ListenTarget
  /-- Subscriptions that exist, oldest first. -/
  established : List Step
  deriving DecidableEq, Repr

/-- State at process start: nothing ran, the global pointer is
zero-initialised. -/
def initialWorld : World :=
  { trace := [], systemBus := .null, listenTarget := none, established := [] }

/-- Outcome of running a piece of code: it returned a value, or an exception
left it; either way with the state reached. -/
inductive Result (α : Type) where
  | ok (a : α) (w : World)
  | thrown (t : Thrown) (w : World)

/-- State reached. -/
def Result.world {α : Type} : Result α → World
  | .ok _ w => w
  | .thrown _ w => w

/-- Value returned, if the code returned. -/
def Result.value? {α : Type} : Result α → Option α
  | .ok a _ => some a
  | .thrown _ _ => none

/-- Code that runs on a `World` and returns or throws. -/
def Exec (α : Type) : Type := World → Result α

/-- Returning a value without touching the state. -/
def Exec.pure {α : Type} (a : α) : Exec α := fun w => .ok a w

/-- Sequencing: the second part runs only if the first returned. -/
def Exec.bind {α β : Type} (m : Exec α) (f : α → Exec β) : Exec β := fun w =>
  match m w with
  | .ok a w1 => f a w1
  | .thrown t w1 => .thrown t w1

instance : Monad Exec where
  pure := Exec.pure
  bind := Exec.bind

instance : LawfulMonad Exec := LawfulMonad.mk' Exec
  (by
    intro α x
    funext w
    show Exec.bind x _ w = x w
    unfold Exec.bind
    cases x w <;> rfl)
  (by intros; rfl)
  (by
    intro α β γ x f g
    funext w
    show Exec.bind (Exec.bind x f) g w = Exec.bind x (fun a => Exec.bind (f a) g) w
    unfold Exec.bind
    cases x w <;> rfl)

/-- `SD_LISTEN_FDS_START` of systemd/sd-daemon.h. -/
def SD_LISTEN_FDS_START : Int := 3

/-- Line 38: `constexpr int defaultPort = 18080;`. -/
def defaultPort : Int := 18080

/-- Steps that cannot throw: the two C functions of libsystemd, the two
pointer assignments, and the marker of entering `setupSocket`. -/
def Step.noexcept : Step → Bool
  | .sdListenFds => true
  | .sdIsSocketInet => true
  | .assignSystemBus => true
  | .clearSystemBus => true
  | .setupSocket => true
  | _ => false

/-- The seven `crow::dbus_monitor::register...Signal` calls,
`registerHostnameSignal` and `registerUserRemovedSignal`. -/
def Step.isSubscription : Step → Bool
  | .registerStateChangeSignal => true
  | .registerDumpUpdateSignal => true
  | .registerBIOSAttrUpdateSignal => true
  | .registerEventLogCreatedSignal => true
  | .registerPostCodeChangeSignal => true
  | .registerVMIConfigChangeSignal => true
  | .registerSAIStateChangeSignal => true
  | .registerHostnameSignal => true
  | .registerUserRemovedSignal => true
  | _ => false

/-- The `requestRoutes(app)` calls of `run`. -/
def Step.isRequestRoutes : Step → Bool
  | .webassetsRequestRoutes => true
  | .obmcKvmRequestRoutes => true
  | .imageUploadRequestRoutes => true
  | .openbmcMapperRequestRoutes => true
  | .dbusMonitorRequestRoutes => true
  | .obmcConsoleRequestRoutes => true
  | .obmcShellRequestRoutes => true
  | .obmcHypervisorRequestRoutes => true
  | .obmcVmRequestRoutes => true
  | .ibmMcRequestRoutes => true
  | .googleApiRequestRoutes => true
  | .corsPreflightRequestRoutes => true
  | .loginRoutesRequestRoutes => true
  | .nbdProxyRequestRoutes => true
  | _ => false

/-- What the step throws in this environment, if anything. -/
def raises (env : Env) (s : Step) : Option Thrown :=
  if s.noexcept then none else env.throws s

/-- State change made by a step that returns.  The two assignments set the
global pointer, `app.socket` and `app.port` record the listen target.  A
register call that returns has either set up its subscription or failed
without throwing; its body is not part of webserver_main.cpp, so which of the
two happens is the parameter `Env.establishFails`. -/
def effect (env : Env) (s : Step) (w : World) : World :=
  match s with
  | .assignSystemBus => { w with systemBus := .runLocal }
  | .clearSystemBus => { w with systemBus := .null }
  | .appSocket fd => { w with listenTarget := some (.inheritedDescriptor fd) }
  | .appPort n => { w with listenTarget := some (.port n) }
  | s =>
    if s.isSubscription && !env.establishFails s then
      { w with established := w.established ++ [s] }
    else w

/-- Executing one statement: it is logged in the trace; then it throws, or it
returns and its effect is applied. -/
def invoke (env : Env) (s : Step) : Exec Unit := fun w =>
  match raises env s with
  | some t => .thrown t { w with trace := w.trace ++ [s] }
  | none => .ok () (effect env s { w with trace := w.trace ++ [s] })

/-- Line 42: `sd_listen_fds(0)`. -/
def sd_listen_fds (env : Env) : Exec Int := do
  invoke env .sdListenFds
  pure env.listenFds

/-- Line 46: `sd_is_socket_inet(SD_LISTEN_FDS_START, AF_UNSPEC, SOCK_STREAM, 1, 0)`. -/
def sd_is_socket_inet (env : Env) : Exec Int := do
  invoke env .sdIsSocketInet
  pure env.isSocketInet

/-- Line 171: `redfish::EventServiceManager::startEventLogMonitor(*io)`. -/
def startEventLogMonitor (env : Env) : Exec Int := do
  invoke env .startEventLogMonitor
  pure env.monitorRc

/-- Lines 40-66: `setupSocket(app)`. -/
def setupSocket (env : Env) : Exec Unit := do
  invoke env .setupSocket
  let listenFd ← sd_listen_fds env
  if 1 = listenFd then
    if (← sd_is_socket_inet env) ≠ 0 then
      invoke env (.appSocket SD_LISTEN_FDS_START)
    else
      invoke env (.appPort defaultPort)
  else
    invoke env (.appPort defaultPort)

/-- A block between `#ifdef FLAG` and `#endif`: compiled in when the flag is
defined, absent otherwise.  Also used for a C++ `if` without `else`. -/
def ifdef (flag : Bool) (body : Exec Unit) : Exec Unit :=
  if flag then body else pure ()

/-- A block pair `#ifdef FLAG ... #else ... #endif`. -/
def ifdefElse (flag : Bool) (body other : Exec Unit) : Exec Unit :=
  if flag then body else other

/-- Lines 68-192: `run()`. -/
def run (flags : Flags) (env : Env) : Exec Int := do
  ifdefElse flags.logging
    (invoke env .setLogLevelDebug)
    (invoke env .setLogLevelError)
  invoke env .makeIoContext
  invoke env .constructApp
  invoke env .constructSystemBus
  invoke env .assignSystemBus
  ifdef flags.staticHosting do
    invoke env .webassetsRequestRoutes
  ifdef flags.kvm do
    invoke env .obmcKvmRequestRoutes
  ifdef flags.redfish do
    invoke env .constructRedfishService
    invoke env .eventServiceManagerGetInstance
    ifdef flags.redfishAggregation do
      invoke env .redfishAggregatorGetInstance
  ifdef flags.dbusRest do
    invoke env .imageUploadRequestRoutes
    invoke env .openbmcMapperRequestRoutes
  ifdef flags.eventSubscriptionWebsocket do
    invoke env .dbusMonitorRequestRoutes
  ifdef flags.hostSerialWebsocket do
    invoke env .obmcConsoleRequestRoutes
  ifdef flags.bmcShellWebsocket do
    invoke env .obmcShellRequestRoutes
  ifdef flags.hypervisorSerialWebsocket do
    invoke env .obmcHypervisorRequestRoutes
  ifdef flags.vmWebsocket do
    invoke env .obmcVmRequestRoutes
  ifdef flags.ibmManagementConsole do
    invoke env .ibmMcRequestRoutes
    invoke env .ibmMcLockGetInstance
    invoke env .registerStateChangeSignal
    invoke env .registerDumpUpdateSignal
    invoke env .registerBIOSAttrUpdateSignal
    invoke env .registerEventLogCreatedSignal
    invoke env .registerPostCodeChangeSignal
    invoke env .registerVMIConfigChangeSignal
    invoke env .registerSAIStateChangeSignal
  ifdef flags.googleApi do
    invoke env .googleApiRequestRoutes
  ifdef (flags.bmcwebInsecureDisableXssPrevention != 0) do
    invoke env .corsPreflightRequestRoutes
  invoke env .loginRoutesRequestRoutes
  setupSocket env
  ifdef flags.vmNbdproxy do
    invoke env .nbdProxyRequestRoutes
  if !flags.redfishDbusLogEntries then
    let rc ← startEventLogMonitor env
    if rc ≠ 0 then
      return rc
  ifdef flags.ssl do
    invoke env .registerHostnameSignal
  invoke env .registerUserRemovedSignal
  invoke env .appRun
  invoke env .ioRun
  invoke env .clearSystemBus
  return 0

/-- Lines 194-210: `main`.  Both handlers return -1. -/
def main (flags : Flags) (env : Env) : Exec Int := fun w =>
  match run flags env w with
  | .ok rc w1 => .ok rc w1
  | .thrown (.stdException _) w1 => .ok (-1) w1
  | .thrown .other w1 => .ok (-1) w1

/-- Every switch off and `bmcwebInsecureDisableXssPrevention` zero. -/
def allDisabled : Flags :=
  { logging := false, staticHosting := false, kvm := false, redfish := false,
    redfishAggregation := false, dbusRest := false,
    eventSubscriptionWebsocket := false, hostSerialWebsocket := false,
    bmcShellWebsocket := false, hypervisorSerialWebsocket := false,
    vmWebsocket := false, ibmManagementConsole := false, googleApi := false,
    vmNbdproxy := false, redfishDbusLogEntries := false, ssl := false,
    bmcwebInsecureDisableXssPrevention := 0 }

/-- An environment in which no call throws and no subscription fails, with
the three given results. -/
def quietEnv (listenFds isSocketInet monitorRc : Int) : Env :=
  { throws := fun _ => none, listenFds := listenFds,
    isSocketInet := isSocketInet, monitorRc := monitorRc,
    establishFails := fun _ => false }

/-- The statements of `run` before the call of `setupSocket`, in source
order. -/
def registrationSteps : List Step :=
  [.setLogLevelDebug, .setLogLevelError, .makeIoContext, .constructApp,
   .constructSystemBus, .assignSystemBus, .webassetsRequestRoutes,
   .obmcKvmRequestRoutes, .constructRedfishService,
   .eventServiceManagerGetInstance, .redfishAggregatorGetInstance,
   .imageUploadRequestRoutes, .openbmcMapperRequestRoutes,
   .dbusMonitorRequestRoutes, .obmcConsoleRequestRoutes,
   .obmcShellRequestRoutes, .obmcHypervisorRequestRoutes, .obmcVmRequestRoutes,
   .ibmMcRequestRoutes, .ibmMcLockGetInstance, .registerStateChangeSignal,
   .registerDumpUpdateSignal, .registerBIOSAttrUpdateSignal,
   .registerEventLogCreatedSignal, .registerPostCodeChangeSignal,
   .registerVMIConfigChangeSignal, .registerSAIStateChangeSignal,
   .googleApiRequestRoutes, .corsPreflightRequestRoutes,
   .loginRoutesRequestRoutes]

/-- The statements of `setupSocket`, in source order. -/
def setupSocketSteps : List Step :=
  [.setupSocket, .sdListenFds, .sdIsSocketInet, .appSocket SD_LISTEN_FDS_START,
   .appPort defaultPort]

/-- The statements of `run` after the call of `setupSocket`, in source
order. -/
def finishSteps : List Step :=
  [.nbdProxyRequestRoutes, .startEventLogMonitor, .registerHostnameSignal,
   .registerUserRemovedSignal, .appRun, .ioRun, .clearSystemBus]

/-- Every statement of `run`, with those of `setupSocket` at its call, in
source order. -/
def allSteps : List Step :=
  registrationSteps ++ (setupSocketSteps ++ finishSteps)

/-- Whether `setupSocket` takes the branch of line 51. -/
def usesInherited (env : Env) : Bool :=
  env.listenFds == 1 && env.isSocketInet != 0

/-- Whether `run` goes on after lines 170-177: the block is compiled out, or
the monitor returned 0. -/
def pastMonitor (flags : Flags) (env : Env) : Bool :=
  flags.redfishDbusLogEntries || env.monitorRc == 0

/-- Whether `run` executes the statement, provided every statement before it
returned: its `#ifdef` condition and the branch conditions around it. -/
def enabled (flags : Flags) (env : Env) : Step → Bool
  | .setLogLevelDebug => flags.logging
  | .setLogLevelError => !flags.logging
  | .makeIoContext => true
  | .constructApp => true
  | .constructSystemBus => true
  | .assignSystemBus => true
  | .webassetsRequestRoutes => flags.staticHosting
  | .obmcKvmRequestRoutes => flags.kvm
  | .constructRedfishService => flags.redfish
  | .eventServiceManagerGetInstance => flags.redfish
  | .redfishAggregatorGetInstance => flags.redfish && flags.redfishAggregation
  | .imageUploadRequestRoutes => flags.dbusRest
  | .openbmcMapperRequestRoutes => flags.dbusRest
  | .dbusMonitorRequestRoutes => flags.eventSubscriptionWebsocket
  | .obmcConsoleRequestRoutes => flags.hostSerialWebsocket
  | .obmcShellRequestRoutes => flags.bmcShellWebsocket
  | .obmcHypervisorRequestRoutes => flags.hypervisorSerialWebsocket
  | .obmcVmRequestRoutes => flags.vmWebsocket
  | .ibmMcRequestRoutes => flags.ibmManagementConsole
  | .ibmMcLockGetInstance => flags.ibmManagementConsole
  | .registerStateChangeSignal => flags.ibmManagementConsole
  | .registerDumpUpdateSignal => flags.ibmManagementConsole
  | .registerBIOSAttrUpdateSignal => flags.ibmManagementConsole
  | .registerEventLogCreatedSignal => flags.ibmManagementConsole
  | .registerPostCodeChangeSignal => flags.ibmManagementConsole
  | .registerVMIConfigChangeSignal => flags.ibmManagementConsole
  | .registerSAIStateChangeSignal => flags.ibmManagementConsole
  | .googleApiRequestRoutes => flags.googleApi
  | .corsPreflightRequestRoutes => flags.bmcwebInsecureDisableXssPrevention != 0
  | .loginRoutesRequestRoutes => true
  | .setupSocket => true
  | .sdListenFds => true
  | .sdIsSocketInet => env.listenFds == 1
  | .appSocket fd => fd == SD_LISTEN_FDS_START && usesInherited env
  | .appPort n => n == defaultPort && !usesInherited env
  | .nbdProxyRequestRoutes => flags.vmNbdproxy
  | .startEventLogMonitor => !flags.redfishDbusLogEntries
  | .registerHostnameSignal => pastMonitor flags env && flags.ssl
  | .registerUserRemovedSignal => pastMonitor flags env
  | .appRun => pastMonitor flags env
  | .ioRun => pastMonitor flags env
  | .clearSystemBus => pastMonitor flags env

/-- The statements `run` executes if none throws, in order. -/
def plan (flags : Flags) (env : Env) : List Step :=
  allSteps.filter (enabled flags env)

/-- The value `run` returns if no statement throws. -/
def exitStatus (flags : Flags) (env : Env) : Int :=
  if pastMonitor flags env then 0 else env.monitorRc

/-- Executing a list of statements one after the other. -/
def perform (env : Env) : List Step → Exec Unit
  | [] => pure ()
  | s :: rest => do
    invoke env s
    perform env rest

/-- The statements of a list that get begun: all up to and including the
first one that throws. -/
def performed (env : Env) : List Step → List Step
  | [] => []
  | s :: rest =>
    match raises env s with
    | some _ => [s]
    | none => s :: performed env rest

/-- The state after all statements of a list returned. -/
def settled (env : Env) : List Step → World → World
  | [], w => w
  | s :: rest, w => settled env rest (effect env s { w with trace := w.trace ++ [s] })

/-- Whether `first` is begun before `second` is begun, in a trace. -/
def Before (first second : Step) (trace : List Step) : Prop :=
  List.Sublist [first, second] trace

instance decidableBefore (first second : Step) (trace : List Step) :
    Decidable (Before first second trace) :=
  inferInstanceAs (Decidable (List.Sublist [first, second] trace))

/-- The steps begun by `run` when started in the state of process start. -/
def runTrace (flags : Flags) (env : Env) : List Step :=
  (run flags env initialWorld).world.trace

/-- The statements of `run` after lines 170-177. -/
def afterMonitorSteps : List Step :=
  [.registerHostnameSignal, .registerUserRemovedSignal, .appRun, .ioRun, .clearSystemBus]

/-- Every switch off except `BMCWEB_ENABLE_STATIC_HOSTING`. -/
def staticHostingOnly : Flags := { allDisabled with staticHosting := true }

/-- Every switch off except `BMCWEB_ENABLE_VM_NBDPROXY`. -/
def nbdProxyOnly : Flags := { allDisabled with vmNbdproxy := true }

/-- The listen target `setupSocket` hands to the app. -/
def chosenTarget (env : Env) : ListenTarget :=
  if usesInherited env then .inheritedDescriptor SD_LISTEN_FDS_START else .port defaultPort

/-! ## Theorems -/

theorem bind_apply {α β : Type} (m : Exec α) (f : α → Exec β) (w : World) :
    (m >>= f) w = match m w with
      | .ok a w1 => f a w1
      | .thrown t w1 => .thrown t w1 := rfl

theorem pure_apply {α : Type} (a : α) (w : World) :
    (pure a : Exec α) w = .ok a w := rfl

theorem ifdef_true (m : Exec Unit) : ifdef true m = m := rfl

theorem ifdef_false (m : Exec Unit) : ifdef false m = pure () := rfl

theorem ifdef_bind (b : Bool) (m n : Exec Unit) :
    ifdef b (m >>= fun _ => n) = ifdef b m >>= fun _ => ifdef b n := by
  cases b <;> simp [ifdef]

theorem ifdef_ifdef (b c : Bool) (m : Exec Unit) :
    ifdef b (ifdef c m) = ifdef (b && c) m := by
  cases b <;> cases c <;> rfl

theorem ifdefElse_eq (b : Bool) (m n : Exec Unit) :
    ifdefElse b m n = ifdef b m >>= fun _ => ifdef (!b) n := by
  cases b <;> simp [ifdef, ifdefElse]

theorem perform_nil (env : Env) : perform env [] = pure () := rfl

theorem perform_cons (env : Env) (s : Step) (l : List Step) :
    perform env (s :: l) = invoke env s >>= fun _ => perform env l := rfl

theorem perform_append (env : Env) (l1 l2 : List Step) :
    perform env (l1 ++ l2) = perform env l1 >>= fun _ => perform env l2 := by
  induction l1 with
  | nil => simp [perform_nil]
  | cons s l ih => simp [perform_cons, ih]

theorem perform_filter_cons (env : Env) (p : Step → Bool) (s : Step) (l : List Step) :
    perform env ((s :: l).filter p)
      = ifdef (p s) (invoke env s) >>= fun _ => perform env (l.filter p) := by
  cases h : p s <;> simp [List.filter_cons, h, ifdef, perform_cons]

theorem setupSocket_eq (flags : Flags) (env : Env) :
    setupSocket env = perform env (setupSocketSteps.filter (enabled flags env)) := by
  unfold setupSocket setupSocketSteps sd_listen_fds sd_is_socket_inet
  simp only [perform_filter_cons, List.filter_nil, perform_nil, enabled, usesInherited,
    bind_assoc, pure_bind, ifdef_true, beq_self_eq_true, Bool.true_and]
  by_cases h1 : env.listenFds = 1 <;> by_cases h2 : env.isSocketInet = 0
  · have b1 : (env.listenFds == 1) = true := by simpa using h1
    have b2 : (env.isSocketInet != 0) = false := by simpa using h2
    simp [h1, h2, b1, b2, ifdef_true, ifdef_false, -bind_pure_comp]
  · have b1 : (env.listenFds == 1) = true := by simpa using h1
    have b2 : (env.isSocketInet != 0) = true := by simpa using h2
    simp [h1, h2, b1, b2, ifdef_true, ifdef_false, -bind_pure_comp]
  · have b1 : (env.listenFds == 1) = false := by simpa using h1
    simp [h1, Ne.symm h1, b1, ifdef_true, ifdef_false, -bind_pure_comp]
  · have b1 : (env.listenFds == 1) = false := by simpa using h1
    simp [h1, Ne.symm h1, b1, ifdef_true, ifdef_false, -bind_pure_comp]

theorem finish_eq (flags : Flags) (env : Env) :
    (do
      ifdef flags.vmNbdproxy (invoke env .nbdProxyRequestRoutes)
      let jp : PUnit → Exec Int := fun _ => do
        ifdef flags.ssl (invoke env .registerHostnameSignal)
        invoke env .registerUserRemovedSignal
        invoke env .appRun
        invoke env .ioRun
        invoke env .clearSystemBus
        pure 0
      if (!flags.redfishDbusLogEntries) = true then do
        let rc ← startEventLogMonitor env
        if rc ≠ 0 then pure rc
        else do
          let y ← pure PUnit.unit
          jp y
      else do
        let y ← pure PUnit.unit
        jp y)
    = (perform env (finishSteps.filter (enabled flags env)) >>= fun _ =>
        pure (exitStatus flags env)) := by
  unfold finishSteps startEventLogMonitor
  simp only [perform_filter_cons, List.filter_nil, perform_nil, enabled, bind_assoc, pure_bind]
  cases h1 : flags.redfishDbusLogEntries <;> by_cases h2 : env.monitorRc = 0
  · simp [pastMonitor, exitStatus, h1, h2, ifdef_true, ifdef_false, -bind_pure_comp]
  · have b2 : (env.monitorRc == 0) = false := by simpa using h2
    simp [pastMonitor, exitStatus, h1, h2, b2, ifdef_true, ifdef_false, -bind_pure_comp]
  · simp [pastMonitor, exitStatus, h1, h2, ifdef_true, ifdef_false, -bind_pure_comp]
  · simp [pastMonitor, exitStatus, h1, h2, ifdef_true, ifdef_false, -bind_pure_comp]

theorem run_eq (flags : Flags) (env : Env) :
    run flags env = perform env (plan flags env) >>= fun _ => pure (exitStatus flags env) := by
  unfold plan allSteps
  rw [List.filter_append, List.filter_append, perform_append, perform_append,
    ← setupSocket_eq, bind_assoc, bind_assoc, ← finish_eq]
  unfold run registrationSteps
  simp only [perform_filter_cons, List.filter_nil, perform_nil, enabled, bind_assoc, pure_bind,
    ifdef_true, ifdef_bind, ifdef_ifdef, ifdefElse_eq]

theorem effect_trace (env : Env) (s : Step) (w : World) :
    (effect env s w).trace = w.trace := by
  unfold effect
  split <;> try rfl
  split <;> rfl

theorem effect_established (env : Env) (s : Step) (w : World) :
    (effect env s w).established =
      if s.isSubscription && !env.establishFails s then w.established ++ [s]
      else w.established := by
  cases s <;> simp [effect, Step.isSubscription] <;> split <;> rfl

theorem perform_trace (env : Env) (l : List Step) (w : World) :
    (perform env l w).world.trace = w.trace ++ performed env l := by
  induction l generalizing w with
  | nil => simp [perform_nil, pure_apply, Result.world, performed]
  | cons s l ih =>
    rw [perform_cons, bind_apply]
    unfold invoke performed
    cases h : raises env s with
    | some t => simp [Result.world]
    | none => simp [ih, effect_trace]

theorem perform_of_quiet (env : Env) (l : List Step) (w : World)
    (h : ∀ s ∈ l, raises env s = none) :
    perform env l w = .ok () (settled env l w) := by
  induction l generalizing w with
  | nil => rfl
  | cons s l ih =>
    rw [perform_cons, bind_apply]
    unfold invoke
    simp only [h s (List.mem_cons_self s l)]
    exact ih _ (fun x hx => h x (List.mem_cons_of_mem s hx))

theorem quiet_of_perform_ok (env : Env) (l : List Step) (w w1 : World) (u : Unit)
    (h : perform env l w = .ok u w1) : ∀ s ∈ l, raises env s = none := by
  induction l generalizing w with
  | nil => simp
  | cons s l ih =>
    rw [perform_cons, bind_apply] at h
    unfold invoke at h
    cases hs : raises env s with
    | some t => simp [hs] at h
    | none =>
      simp only [hs] at h
      intro x hx
      rcases List.mem_cons.1 hx with rfl | hx
      · exact hs
      · exact ih _ h x hx

theorem performed_of_quiet (env : Env) (l : List Step)
    (h : ∀ s ∈ l, raises env s = none) : performed env l = l := by
  induction l with
  | nil => rfl
  | cons s l ih =>
    unfold performed
    simp only [h s (List.mem_cons_self s l)]
    rw [ih (fun x hx => h x (List.mem_cons_of_mem s hx))]

theorem performed_sublist (env : Env) (l : List Step) :
    List.Sublist (performed env l) l := by
  induction l with
  | nil => exact List.Sublist.refl _
  | cons s l ih =>
    unfold performed
    cases raises env s with
    | some t => simp
    | none => exact ih.cons₂ s

theorem settled_trace (env : Env) (l : List Step) (w : World) :
    (settled env l w).trace = w.trace ++ l := by
  induction l generalizing w with
  | nil => simp [settled]
  | cons s l ih => simp [settled, ih, effect_trace]

theorem settled_established (env : Env) (l : List Step) (w : World) :
    (settled env l w).established =
      w.established ++ l.filter (fun s => s.isSubscription && !env.establishFails s) := by
  induction l generalizing w with
  | nil => simp [settled]
  | cons s l ih =>
    simp only [settled, ih, effect_established, List.filter_cons]
    split <;> simp

theorem before_mem_right {a b : Step} {l : List Step} (h : Before a b l) : b ∈ l :=
  h.subset (by simp)

theorem before_mem_left {a b : Step} {l : List Step} (h : Before a b l) : a ∈ l :=
  h.subset (by simp)

theorem before_filter {a b : Step} {l : List Step} (p : Step → Bool)
    (h : Before a b l) (ha : p a = true) (hb : p b = true) : Before a b (l.filter p) := by
  have := List.Sublist.filter p h
  simpa [Before, List.filter_cons, ha, hb] using this

theorem before_performed (env : Env) {a b : Step} {l : List Step}
    (hnd : l.Nodup) (hab : Before a b l) (hb : b ∈ performed env l) :
    Before a b (performed env l) ∧ raises env a = none := by
  induction l with
  | nil => cases hab
  | cons x l ih =>
    have hxl : x ∉ l := (List.nodup_cons.1 hnd).1
    have hbl : b ∈ l := by
      cases hab with
      | cons _ h => exact before_mem_right h
      | cons₂ _ h => exact h.subset (by simp)
    have hbx : b ≠ x := fun e => hxl (e ▸ hbl)
    unfold performed at hb ⊢
    cases hx : raises env x with
    | some t =>
      simp only [hx, List.mem_singleton] at hb
      exact absurd hb hbx
    | none =>
      simp only [hx, List.mem_cons] at hb
      have hb1 : b ∈ performed env l := hb.resolve_left hbx
      cases hab with
      | cons _ h =>
        have := ih (List.nodup_cons.1 hnd).2 h hb1
        exact ⟨List.Sublist.cons _ this.1, this.2⟩
      | cons₂ _ h =>
        refine ⟨?_, hx⟩
        exact List.Sublist.cons₂ _ (List.singleton_sublist.2 hb1)

set_option maxRecDepth 100000 in
theorem allSteps_nodup : allSteps.Nodup := by decide

theorem run_apply (flags : Flags) (env : Env) (w : World) :
    run flags env w = match perform env (plan flags env) w with
      | .ok _ w1 => .ok (exitStatus flags env) w1
      | .thrown t w1 => .thrown t w1 := by
  rw [run_eq, bind_apply]
  cases perform env (plan flags env) w <;> rfl

theorem runTrace_eq (flags : Flags) (env : Env) :
    runTrace flags env = performed env (plan flags env) := by
  have h := perform_trace env (plan flags env) initialWorld
  unfold runTrace
  rw [run_apply]
  cases hp : perform env (plan flags env) initialWorld <;>
    · rw [hp] at h
      simpa [Result.world, initialWorld] using h

theorem plan_nodup (flags : Flags) (env : Env) : (plan flags env).Nodup :=
  allSteps_nodup.filter _

theorem runTrace_sublist (flags : Flags) (env : Env) :
    List.Sublist (runTrace flags env) allSteps := by
  rw [runTrace_eq]
  exact (performed_sublist env _).trans (List.filter_sublist _)

theorem runTrace_nodup (flags : Flags) (env : Env) : (runTrace flags env).Nodup :=
  (runTrace_sublist flags env).nodup allSteps_nodup

theorem enabled_of_mem_runTrace {flags : Flags} {env : Env} {s : Step}
    (h : s ∈ runTrace flags env) : enabled flags env s = true := by
  rw [runTrace_eq] at h
  have := (performed_sublist env _).subset h
  exact (List.mem_filter.1 this).2

theorem not_before_runTrace {flags : Flags} {env : Env} {a b : Step}
    (h : ¬ Before a b allSteps) : ¬ Before a b (runTrace flags env) :=
  fun hab => h (List.Sublist.trans hab (runTrace_sublist flags env))

theorem before_runTrace {flags : Flags} {env : Env} {a b : Step}
    (hab : Before a b allSteps) (ha : enabled flags env a = true)
    (hb : b ∈ runTrace flags env) :
    Before a b (runTrace flags env) ∧ raises env a = none := by
  have hbe := enabled_of_mem_runTrace hb
  rw [runTrace_eq] at hb ⊢
  exact before_performed env (plan_nodup flags env) (before_filter _ hab ha hbe) hb

set_option maxRecDepth 100000 in
/-- C4: for every flag combination and environment, when static hosting is
enabled and `crow::login_routes::requestRoutes` is begun, then
`crow::webassets::requestRoutes` was begun before it and has returned; and in
no execution is `crow::login_routes::requestRoutes` begun before
`crow::webassets::requestRoutes`. -/
theorem static_assets_before_login_routes (flags : Flags) (env : Env) :
    (flags.staticHosting = true →
      Step.loginRoutesRequestRoutes ∈ runTrace flags env →
        Before .webassetsRequestRoutes .loginRoutesRequestRoutes (runTrace flags env)
          ∧ raises env .webassetsRequestRoutes = none)
    ∧ ¬ Before .loginRoutesRequestRoutes .webassetsRequestRoutes (runTrace flags env) := by
  refine ⟨fun hs hl => before_runTrace (by decide) (by simpa [enabled] using hs) hl, ?_⟩
  exact not_before_runTrace (by decide)

set_option maxRecDepth 100000 in
/-- C4 at a concrete input: only static hosting on, nothing throws. -/
theorem static_assets_before_login_routes_witness :
    Before .webassetsRequestRoutes .loginRoutesRequestRoutes
      (runTrace staticHostingOnly (quietEnv 0 0 0)) :=
  ((static_assets_before_login_routes staticHostingOnly (quietEnv 0 0 0)).1
    rfl (by decide)).1

theorem pastMonitor_of_enabled {flags : Flags} {env : Env} {s : Step}
    (hs : s ∈ afterMonitorSteps) (he : enabled flags env s = true) :
    pastMonitor flags env = true := by
  simp only [afterMonitorSteps, List.mem_cons, List.mem_singleton, List.not_mem_nil,
    or_false] at hs
  rcases hs with rfl | rfl | rfl | rfl | rfl <;> simp [enabled] at he <;> simp [he]

set_option maxRecDepth 100000 in
theorem allSteps_around_monitor : ∀ s ∈ allSteps,
    s = Step.startEventLogMonitor ∨ s ∈ afterMonitorSteps
      ∨ Before s .startEventLogMonitor allSteps := by
  decide

theorem mem_plan {flags : Flags} {env : Env} {s : Step} :
    s ∈ plan flags env ↔ s ∈ allSteps ∧ enabled flags env s = true :=
  List.mem_filter

theorem run_of_quiet (flags : Flags) (env : Env)
    (h : ∀ s ∈ plan flags env, raises env s = none) :
    run flags env initialWorld
      = .ok (exitStatus flags env) (settled env (plan flags env) initialWorld) := by
  rw [run_apply, perform_of_quiet env _ _ h]

theorem runTrace_of_quiet (flags : Flags) (env : Env)
    (h : ∀ s ∈ plan flags env, raises env s = none) :
    runTrace flags env = plan flags env := by
  rw [runTrace_eq, performed_of_quiet env _ h]

theorem pastMonitor_eq_false {flags : Flags} {env : Env} :
    pastMonitor flags env = false ↔ flags.redfishDbusLogEntries = false ∧ env.monitorRc ≠ 0 := by
  simp [pastMonitor]

/-- C1: in every flag configuration and environment in which
`startEventLogMonitor` is invoked and returns a non-zero status, `run` returns
exactly that status, and neither `app.run()` nor `io->run()` is begun. -/
theorem run_monitor_failure (flags : Flags) (env : Env)
    (hinvoked : Step.startEventLogMonitor ∈ runTrace flags env)
    (hreturned : raises env .startEventLogMonitor = none)
    (hrc : env.monitorRc ≠ 0) :
    (run flags env initialWorld).value? = some env.monitorRc
      ∧ Step.appRun ∉ runTrace flags env
      ∧ Step.ioRun ∉ runTrace flags env := by
  have he := enabled_of_mem_runTrace hinvoked
  have hpm : pastMonitor flags env = false :=
    pastMonitor_eq_false.2 ⟨by simpa [enabled] using he, hrc⟩
  have hquiet : ∀ s ∈ plan flags env, raises env s = none := by
    intro s hs
    obtain ⟨hall, hen⟩ := mem_plan.1 hs
    rcases allSteps_around_monitor s hall with rfl | hafter | hbefore
    · exact hreturned
    · rw [pastMonitor_of_enabled hafter hen] at hpm
      cases hpm
    · exact (before_runTrace hbefore hen hinvoked).2
  refine ⟨?_, ?_, ?_⟩
  · rw [run_of_quiet flags env hquiet]
    simp [Result.value?, exitStatus, hpm]
  · intro h
    have := enabled_of_mem_runTrace h
    simp [enabled, hpm] at this
  · intro h
    have := enabled_of_mem_runTrace h
    simp [enabled, hpm] at this

set_option maxRecDepth 100000 in
/-- C1 at a concrete input: every switch off, nothing throws, the monitor
returns 1. -/
theorem run_monitor_failure_witness :
    Step.startEventLogMonitor ∈ runTrace allDisabled (quietEnv 0 0 1)
      ∧ (run allDisabled (quietEnv 0 0 1) initialWorld).value? = some 1
      ∧ Step.appRun ∉ runTrace allDisabled (quietEnv 0 0 1)
      ∧ Step.ioRun ∉ runTrace allDisabled (quietEnv 0 0 1) :=
  ⟨by decide, run_monitor_failure allDisabled (quietEnv 0 0 1) (by decide) (by decide) (by decide)⟩

set_option maxRecDepth 100000 in
/-- C7: `main` always returns, and its exit code is one of three: 0 when `run`
returned 0 after `io->run()` returned; the monitor status when
`startEventLogMonitor` returned a non-zero status (then `app.run()` was not
begun); and -1 when an exception left `run`. -/
theorem main_exit_code (flags : Flags) (env : Env) :
    ∃ c w, main flags env initialWorld = .ok c w ∧
      ((run flags env initialWorld = .ok 0 w ∧ c = 0
          ∧ Step.ioRun ∈ w.trace ∧ raises env .ioRun = none)
        ∨ (run flags env initialWorld = .ok env.monitorRc w ∧ c = env.monitorRc
          ∧ env.monitorRc ≠ 0 ∧ Step.startEventLogMonitor ∈ w.trace
          ∧ raises env .startEventLogMonitor = none ∧ Step.appRun ∉ w.trace)
        ∨ (∃ t, run flags env initialWorld = .thrown t w ∧ c = -1)) := by
  cases hp : perform env (plan flags env) initialWorld with
  | thrown t w =>
    have hr : run flags env initialWorld = .thrown t w := by rw [run_apply, hp]
    refine ⟨-1, w, ?_, Or.inr (Or.inr ⟨t, hr, rfl⟩)⟩
    unfold main
    rw [hr]
    cases t <;> rfl
  | ok u w =>
    have hquiet := quiet_of_perform_ok env _ _ _ _ hp
    have hr : run flags env initialWorld = .ok (exitStatus flags env) w := by
      rw [run_apply, hp]
    have hm : main flags env initialWorld = .ok (exitStatus flags env) w := by
      unfold main
      rw [hr]
    have htr : w.trace = plan flags env := by
      have := runTrace_of_quiet flags env hquiet
      unfold runTrace at this
      rw [hr] at this
      exact this
    refine ⟨exitStatus flags env, w, hm, ?_⟩
    cases hpm : pastMonitor flags env with
    | true =>
      have hmem : Step.ioRun ∈ plan flags env :=
        mem_plan.2 ⟨by decide, by simp [enabled, hpm]⟩
      have hes : exitStatus flags env = 0 := by simp [exitStatus, hpm]
      rw [hes] at hr ⊢
      exact Or.inl ⟨hr, rfl, htr ▸ hmem, hquiet _ hmem⟩
    | false =>
      obtain ⟨hflag, hrc⟩ := pastMonitor_eq_false.1 hpm
      have hmem : Step.startEventLogMonitor ∈ plan flags env :=
        mem_plan.2 ⟨by decide, by simp [enabled, hflag]⟩
      have hes : exitStatus flags env = env.monitorRc := by simp [exitStatus, hpm]
      rw [hes] at hr ⊢
      refine Or.inr (Or.inl ⟨hr, rfl, hrc, htr ▸ hmem, hquiet _ hmem, ?_⟩)
      rw [htr]
      intro h
      have := (mem_plan.1 h).2
      simp [enabled, hpm] at this

/-- C10: when `sd_listen_fds` returns exactly 1, `setupSocket` calls
`app.port(defaultPort)` if `sd_is_socket_inet` returns exactly 0, and calls
`app.socket(SD_LISTEN_FDS_START)` for every other result, the negative ones
included; in each case the other of the two is not called. -/
theorem setupSocket_one_descriptor (env : Env) (w : World) (hcount : env.listenFds = 1) :
    (env.isSocketInet = 0 →
      (setupSocket env w).world.trace = w.trace ++
        [.setupSocket, .sdListenFds, .sdIsSocketInet, .appPort defaultPort])
    ∧ (env.isSocketInet ≠ 0 →
      (setupSocket env w).world.trace = w.trace ++
        [.setupSocket, .sdListenFds, .sdIsSocketInet, .appSocket SD_LISTEN_FDS_START]) := by
  have h1 : raises env .setupSocket = none := rfl
  have h2 : raises env .sdListenFds = none := rfl
  have h3 : raises env .sdIsSocketInet = none := rfl
  have b1 : (env.listenFds == 1) = true := by simpa using hcount
  rw [setupSocket_eq allDisabled env, perform_trace]
  constructor
  · intro h0
    have b2 : (env.isSocketInet != 0) = false := by simpa using h0
    simp only [setupSocketSteps, List.filter_cons, List.filter_nil, enabled, usesInherited,
      b1, b2, performed, h1, h2, h3]
    cases raises env (.appPort defaultPort) <;> simp
  · intro h0
    have b2 : (env.isSocketInet != 0) = true := by simpa using h0
    simp only [setupSocketSteps, List.filter_cons, List.filter_nil, enabled, usesInherited,
      b1, b2, performed, h1, h2, h3]
    cases raises env (.appSocket SD_LISTEN_FDS_START) <;> simp

set_option maxRecDepth 100000 in
/-- C10 at a concrete input: one descriptor, `sd_is_socket_inet` returns -22. -/
theorem setupSocket_one_descriptor_witness :
    (setupSocket (quietEnv 1 (-22) 0) initialWorld).world.trace =
      [.setupSocket, .sdListenFds, .sdIsSocketInet, .appSocket SD_LISTEN_FDS_START] :=
  (setupSocket_one_descriptor (quietEnv 1 (-22) 0) initialWorld (by decide)).2 (by decide)

set_option maxRecDepth 100000 in
/-- C3, at the failing input: `sd_listen_fds` returns 1 and
`sd_is_socket_inet` returns the error -22 (`-EINVAL`), so the descriptor is
not known to be a stream socket; `setupSocket` calls
`app.socket(SD_LISTEN_FDS_START)` and never `app.port(defaultPort)`. -/
theorem setupSocket_inspection_error :
    (setupSocket (quietEnv 1 (-22) 0) initialWorld).world.trace =
        [.setupSocket, .sdListenFds, .sdIsSocketInet, .appSocket SD_LISTEN_FDS_START]
      ∧ (setupSocket (quietEnv 1 (-22) 0) initialWorld).world.listenTarget =
        some (.inheritedDescriptor SD_LISTEN_FDS_START)
      ∧ (setupSocket (quietEnv 1 (-22) 0) initialWorld).world.listenTarget ≠
        some (.port defaultPort) := by
  decide

set_option maxRecDepth 100000 in
/-- C2, at the failing input: every switch off, no call throws, and
`startEventLogMonitor` returns 1.  `run` returns 1 through line 175, and the
global `crow::connections::systemBus` still holds the address of the
destroyed local instead of null. -/
theorem run_early_return_keeps_systemBus :
    (run allDisabled (quietEnv 0 0 1) initialWorld).value? = some 1
      ∧ (run allDisabled (quietEnv 0 0 1) initialWorld).world.systemBus = BusPtr.runLocal
      ∧ (run allDisabled (quietEnv 0 0 1) initialWorld).world.systemBus ≠ BusPtr.null := by
  decide

set_option maxRecDepth 100000 in
/-- C8 fails with only `BMCWEB_ENABLE_VM_NBDPROXY` on:
`crow::nbd_proxy::requestRoutes(app)` is begun after `setupSocket(app)` and
after its `app.port(defaultPort)`. -/
theorem nbd_proxy_routes_after_setupSocket :
    Step.nbdProxyRequestRoutes.isRequestRoutes = true
      ∧ Before .setupSocket .nbdProxyRequestRoutes (runTrace nbdProxyOnly (quietEnv 0 0 0))
      ∧ Before (.appPort defaultPort) .nbdProxyRequestRoutes
          (runTrace nbdProxyOnly (quietEnv 0 0 0)) := by
  decide

set_option maxRecDepth 100000 in
theorem routes_not_after_setupSocket : ∀ r : Step, r.isRequestRoutes = true →
    r ≠ .nbdProxyRequestRoutes → ∀ s ∈ setupSocketSteps, ¬ Before s r allSteps := by
  intro r hr hne
  cases r <;> first
    | (simp [Step.isRequestRoutes] at hr; done)
    | exact absurd rfl hne
    | decide

set_option maxRecDepth 100000 in
theorem routes_not_after_loop : ∀ r : Step, r.isRequestRoutes = true →
    ¬ Before .appRun r allSteps ∧ ¬ Before .ioRun r allSteps := by
  intro r hr
  cases r <;> first
    | (simp [Step.isRequestRoutes] at hr; done)
    | decide

set_option maxRecDepth 100000 in
/-- C8 as amended: for every flag combination and environment, no
`requestRoutes` call other than `crow::nbd_proxy::requestRoutes` is begun
after any statement of `setupSocket`; `crow::nbd_proxy::requestRoutes`, when
begun, comes after `setupSocket`; no `requestRoutes` call at all is begun
after `app.run()` or `io->run()`; and when `app.run()` is begun, `setupSocket`
and its `app.socket` or `app.port` call came before it. -/
theorem listen_target_between_routes_and_loop (flags : Flags) (env : Env) :
    (∀ r : Step, r.isRequestRoutes = true → r ≠ .nbdProxyRequestRoutes →
        ∀ s ∈ setupSocketSteps, ¬ Before s r (runTrace flags env))
    ∧ (Step.nbdProxyRequestRoutes ∈ runTrace flags env →
        Before .setupSocket .nbdProxyRequestRoutes (runTrace flags env))
    ∧ (∀ r : Step, r.isRequestRoutes = true →
        ¬ Before .appRun r (runTrace flags env) ∧ ¬ Before .ioRun r (runTrace flags env))
    ∧ (Step.appRun ∈ runTrace flags env →
        Before .setupSocket .appRun (runTrace flags env)
        ∧ (Before (.appSocket SD_LISTEN_FDS_START) .appRun (runTrace flags env)
          ∨ Before (.appPort defaultPort) .appRun (runTrace flags env))) := by
  refine ⟨?_, ?_, ?_, ?_⟩
  · intro r hr hne s hs
    exact not_before_runTrace (routes_not_after_setupSocket r hr hne s hs)
  · intro h
    have hb : Before .setupSocket .nbdProxyRequestRoutes allSteps := by decide
    have he : enabled flags env .setupSocket = true := rfl
    exact (before_runTrace hb he h).1
  · intro r hr
    exact ⟨not_before_runTrace (routes_not_after_loop r hr).1,
      not_before_runTrace (routes_not_after_loop r hr).2⟩
  · intro h
    have hb : Before .setupSocket .appRun allSteps := by decide
    have hs : Before (.appSocket SD_LISTEN_FDS_START) .appRun allSteps := by decide
    have hp : Before (.appPort defaultPort) .appRun allSteps := by decide
    have he : enabled flags env .setupSocket = true := rfl
    refine ⟨(before_runTrace hb he h).1, ?_⟩
    cases hu : usesInherited env with
    | true => exact Or.inl (before_runTrace hs (by simp [enabled, hu]) h).1
    | false => exact Or.inr (before_runTrace hp (by simp [enabled, hu]) h).1

set_option maxRecDepth 100000 in
/-- C8 as amended, at a concrete input: only the NBD proxy on, nothing
throws, the monitor returns 0. -/
theorem listen_target_between_routes_and_loop_witness :
    Before .setupSocket .appRun (runTrace nbdProxyOnly (quietEnv 0 0 0))
      ∧ (Before (.appSocket SD_LISTEN_FDS_START) .appRun (runTrace nbdProxyOnly (quietEnv 0 0 0))
        ∨ Before (.appPort defaultPort) .appRun (runTrace nbdProxyOnly (quietEnv 0 0 0))) :=
  (listen_target_between_routes_and_loop nbdProxyOnly (quietEnv 0 0 0)).2.2.2 (by decide)

set_option maxRecDepth 100000 in
/-- C9 fails with every switch off: `crow::login_routes::requestRoutes(app)`
is begun before `setupSocket(app)`, not after it. -/
theorem login_routes_before_setupSocket :
    Before .loginRoutesRequestRoutes .setupSocket (runTrace allDisabled (quietEnv 0 0 0))
      ∧ ¬ Before .setupSocket .loginRoutesRequestRoutes
          (runTrace allDisabled (quietEnv 0 0 0)) := by
  decide

set_option maxRecDepth 100000 in
theorem finish_not_before_setupSocket :
    ∀ s ∈ finishSteps, ¬ Before s .setupSocket allSteps := by
  decide

set_option maxRecDepth 100000 in
theorem registration_not_after_setupSocket :
    ∀ s ∈ registrationSteps, ¬ Before .setupSocket s allSteps := by
  decide

set_option maxRecDepth 100000 in
/-- C9 as amended: for every flag combination and environment, `setupSocket`
is entered at most once, and exactly once when `app.run()` is begun; of
`app.socket` and `app.port` at most one call is made in all; whenever
`setupSocket` is entered, `crow::login_routes::requestRoutes` was begun before
it; no statement of lines 72-162 is begun after it; and none of
`crow::nbd_proxy::requestRoutes`, `startEventLogMonitor`,
`registerHostnameSignal`, `registerUserRemovedSignal`, `app.run()`,
`io->run()` and the clearing of the bus pointer is begun before it. -/
theorem setupSocket_once_after_registrations (flags : Flags) (env : Env) :
    (runTrace flags env).count .setupSocket ≤ 1
    ∧ (Step.appRun ∈ runTrace flags env → (runTrace flags env).count .setupSocket = 1)
    ∧ (runTrace flags env).count (.appSocket SD_LISTEN_FDS_START)
        + (runTrace flags env).count (.appPort defaultPort) ≤ 1
    ∧ (Step.setupSocket ∈ runTrace flags env →
        Before .loginRoutesRequestRoutes .setupSocket (runTrace flags env))
    ∧ (∀ s ∈ registrationSteps, ¬ Before .setupSocket s (runTrace flags env))
    ∧ (∀ s ∈ finishSteps, ¬ Before s .setupSocket (runTrace flags env)) := by
  have hnd := runTrace_nodup flags env
  refine ⟨List.nodup_iff_count_le_one.1 hnd _, ?_, ?_, ?_, ?_, ?_⟩
  · intro h
    have hb : Before .setupSocket .appRun allSteps := by decide
    have he : enabled flags env .setupSocket = true := rfl
    have hmem := before_mem_left (before_runTrace hb he h).1
    exact List.count_eq_one_of_mem hnd hmem
  · cases hu : usesInherited env with
    | true =>
      have h0 : Step.appPort defaultPort ∉ runTrace flags env := by
        intro h
        have := enabled_of_mem_runTrace h
        simp [enabled, hu] at this
      rw [List.count_eq_zero_of_not_mem h0]
      exact List.nodup_iff_count_le_one.1 hnd _
    | false =>
      have h0 : Step.appSocket SD_LISTEN_FDS_START ∉ runTrace flags env := by
        intro h
        have := enabled_of_mem_runTrace h
        simp [enabled, hu] at this
      rw [List.count_eq_zero_of_not_mem h0, Nat.zero_add]
      exact List.nodup_iff_count_le_one.1 hnd _
  · intro h
    have hb : Before .loginRoutesRequestRoutes .setupSocket allSteps := by decide
    have he : enabled flags env .loginRoutesRequestRoutes = true := rfl
    exact (before_runTrace hb he h).1
  · intro s hs
    exact not_before_runTrace (registration_not_after_setupSocket s hs)
  · intro s hs
    exact not_before_runTrace (finish_not_before_setupSocket s hs)

set_option maxRecDepth 100000 in
/-- C9 as amended, at a concrete input: every switch off, nothing throws, the
monitor returns 0. -/
theorem setupSocket_once_after_registrations_witness :
    (runTrace allDisabled (quietEnv 0 0 0)).count .setupSocket = 1 :=
  (setupSocket_once_after_registrations allDisabled (quietEnv 0 0 0)).2.1 (by decide)

theorem quiet_plan {flags : Flags} {env : Env} (h : ∀ s, raises env s = none) :
    ∀ s ∈ plan flags env, raises env s = none :=
  fun s _ => h s

set_option maxRecDepth 100000 in
/-- C5 fails with every switch off when `startEventLogMonitor`, which is
compiled in because `BMCWEB_ENABLE_REDFISH_DBUS_LOG_ENTRIES` is off, returns
1 and nothing throws: `run` returns 1 and never begins `app.run()` or
`io->run()`. -/
theorem run_allDisabled_needs_monitor :
    (run allDisabled (quietEnv 0 0 1) initialWorld).value? = some 1
      ∧ Step.startEventLogMonitor ∈ runTrace allDisabled (quietEnv 0 0 1)
      ∧ Step.appRun ∉ runTrace allDisabled (quietEnv 0 0 1)
      ∧ Step.ioRun ∉ runTrace allDisabled (quietEnv 0 0 1) := by
  decide

set_option maxRecDepth 100000 in
/-- C5 as amended: with every switch off, if no call throws and
`startEventLogMonitor` returns 0, then `run` returns 0 after having, in this
order, built the io_context, the app and the bus connection, set the global
bus pointer, registered the login routes, called `setupSocket`, started the
event-log monitor, registered the user-removed signal, run `app.run()` and
`io->run()` and cleared the global bus pointer; the app got the listen target
chosen by `setupSocket`, and the pointer is null at the end. -/
theorem run_allDisabled_clean (env : Env) (hquiet : ∀ s, raises env s = none)
    (hrc : env.monitorRc = 0) :
    ∃ w, run allDisabled env initialWorld = .ok 0 w
      ∧ List.Sublist
          [.makeIoContext, .constructApp, .constructSystemBus, .assignSystemBus,
           .loginRoutesRequestRoutes, .setupSocket, .startEventLogMonitor,
           .registerUserRemovedSignal, .appRun, .ioRun, .clearSystemBus] w.trace
      ∧ w.listenTarget = some (chosenTarget env)
      ∧ w.systemBus = .null := by
  have hpm : pastMonitor allDisabled env = true := by simp [pastMonitor, hrc]
  refine ⟨settled env (plan allDisabled env) initialWorld, ?_, ?_, ?_, ?_⟩
  · rw [run_of_quiet allDisabled env (quiet_plan hquiet)]
    simp [exitStatus, hpm]
  · rw [settled_trace]
    cases h1 : (env.listenFds == 1) <;> cases h2 : (env.isSocketInet != 0) <;>
      simp only [plan, allSteps, registrationSteps, setupSocketSteps, finishSteps,
        List.filter_cons, List.filter_nil, List.cons_append, List.nil_append, enabled, hpm,
        usesInherited, h1, h2, initialWorld] <;>
      simp only [allDisabled] <;> decide
  all_goals
    cases hf : env.establishFails .registerUserRemovedSignal <;>
    cases h1 : (env.listenFds == 1) <;> cases h2 : (env.isSocketInet != 0) <;>
      simp only [plan, allSteps, registrationSteps, setupSocketSteps, finishSteps,
        List.filter_cons, List.filter_nil, List.cons_append, List.nil_append, enabled, hpm,
        usesInherited, h1, h2, chosenTarget] <;>
      simp [allDisabled, settled, effect, initialWorld, Step.isSubscription, hf]

theorem raises_of_throws_none {env : Env} (h : ∀ s, env.throws s = none) :
    ∀ s, raises env s = none := by
  intro s
  unfold raises
  split
  · rfl
  · exact h s

/-- C5 as amended, at a concrete input: nothing throws, `sd_listen_fds`
returns 0 and the monitor returns 0. -/
theorem run_allDisabled_clean_witness :
    ∃ w, run allDisabled (quietEnv 0 0 0) initialWorld = .ok 0 w
      ∧ List.Sublist
          [.makeIoContext, .constructApp, .constructSystemBus, .assignSystemBus,
           .loginRoutesRequestRoutes, .setupSocket, .startEventLogMonitor,
           .registerUserRemovedSignal, .appRun, .ioRun, .clearSystemBus] w.trace
      ∧ w.listenTarget = some (chosenTarget (quietEnv 0 0 0))
      ∧ w.systemBus = .null :=
  run_allDisabled_clean (quietEnv 0 0 0) (raises_of_throws_none (fun _ => rfl)) rfl

end Bmcweb
